import Mathlib

/-!
# Verification of the camera / biometric capability app

Shallow embedding of the three source modules of the repository:

* `camera.ts`   — camera gateway: `requestCameraAccess`, `stopCamera`, the
  module-level `currentStream` tracking variable and the camera error
  classifier.
* `webauthn.ts` — biometric gateway: `checkWebAuthnSupport`, the
  base64 helpers `uint8ArrayToBase64` / `base64ToUint8Array`, the
  localStorage-backed credential store, `registerCredential`,
  `authenticateUser` and the per-call error classifiers.
* `main.ts`     — orchestrator: `handleWebAuthnAuthentication`, the gesture
  flow with its `isAuthenticating` re-entrancy guard, modelled as a segmented
  state machine whose suspension points (the platform credential call and the
  secondary camera call) are explicit.

Machine-level effects (DOM writes, CSS classes, button labels) are out of
scope except where a claim observes them; the platform (browser) is an
explicit environment value giving the outcome of each external call.
-/

/-! ## Error taxonomies (camera.ts `CameraError`, webauthn.ts `WebAuthnError`) -/

inductive CameraKind
  | permissionDenied
  | notFound
  | inUse
  | notSupported
  | unknown
deriving DecidableEq

/-- `CameraError` from camera.ts: `{type, message, originalError?}`.
The `originalError` field is an opaque reference and is not modelled. -/
structure CameraError where
  type : CameraKind
  message : String
deriving DecidableEq

inductive WebAuthnKind
  | notSupported
  | notAllowed
  | timeout
  | invalidState
  | unknown
deriving DecidableEq

/-- `WebAuthnError` from webauthn.ts: `{type, message, originalError?}`. -/
structure WebAuthnError where
  type : WebAuthnKind
  message : String
deriving DecidableEq

/-- A platform exception (`DOMException`): a `name` identity and a `message`. -/
structure DOMError where
  name : String
  message : String
deriving DecidableEq

/-- Models the JavaScript idiom `error.message || 'Unknown error'`:
an empty (falsy) message falls back to the literal. -/
def orUnknown (msg : String) : String :=
  if msg = "" then "Unknown error" else msg

/-! ## Error classifiers

Each classifier is the `switch (error.name)` statement of the corresponding
`catch` block, translated branch by branch with the exact messages. -/

/-- The `switch` in the `catch` of `requestCameraAccess` (camera.ts).
The scrutinee is `error.name`; a thrown plain `CameraError` object has no
`name` property, which is modelled as `none` and falls to the default arm. -/
def classifyCameraSwitch (name : Option String) (msg : String) : CameraError :=
  if name = some "NotAllowedError" ∨ name = some "PermissionDeniedError" then
    ⟨.permissionDenied, "Camera access was denied. Please allow camera access to continue."⟩
  else if name = some "NotFoundError" ∨ name = some "DevicesNotFoundError" then
    ⟨.notFound, "No camera device found. Please connect a camera and try again."⟩
  else if name = some "NotReadableError" ∨ name = some "TrackStartError" then
    ⟨.inUse, "Camera is currently in use by another application. Please close other apps using the camera and try again."⟩
  else
    ⟨.unknown, "Unable to access camera: " ++ orUnknown msg⟩

/-- The `switch` in the `catch` of `registerCredential` (webauthn.ts). -/
def classifyRegister (e : DOMError) : WebAuthnError :=
  if e.name = "NotAllowedError" then
    ⟨.notAllowed, "Biometric authentication was cancelled or denied. Please ensure you have Face ID, Touch ID, or Windows Hello set up on your device."⟩
  else if e.name = "NotSupportedError" then
    ⟨.notSupported, "This device does not support biometric authentication. Please ensure Face ID, Touch ID, or Windows Hello is enabled."⟩
  else if e.name = "InvalidStateError" then
    ⟨.invalidState, "A credential is already registered for this device."⟩
  else if e.name = "TimeoutError" ∨ e.name = "AbortError" then
    ⟨.timeout, "Authentication timed out. Please try again and complete the biometric verification within 60 seconds."⟩
  else
    ⟨.unknown, "Unable to register biometric authentication: " ++ orUnknown e.message⟩

/-- The `switch` in the `catch` of `authenticateUser` (webauthn.ts). -/
def classifyAuthenticate (e : DOMError) : WebAuthnError :=
  if e.name = "NotAllowedError" then
    ⟨.notAllowed, "Biometric authentication was cancelled or denied."⟩
  else if e.name = "NotSupportedError" then
    ⟨.notSupported, "This device does not support biometric authentication."⟩
  else if e.name = "InvalidStateError" then
    ⟨.invalidState, "Invalid credential state. Please try registering again."⟩
  else if e.name = "TimeoutError" ∨ e.name = "AbortError" then
    ⟨.timeout, "Authentication timed out. Please try again."⟩
  else
    ⟨.unknown, "Unable to authenticate: " ++ orUnknown e.message⟩

/-! ## Base64 (webauthn.ts `uint8ArrayToBase64` / `base64ToUint8Array`)

`uint8ArrayToBase64` turns the byte sequence into a latin1 string and calls
`btoa`; `base64ToUint8Array` calls `atob` and reads the char codes back.
Bytes are `Nat` values `< 256`; the stored string is its list of char codes.
The alphabet/bit layout below is standard base64 with `'='` (code 61)
padding, which is exactly what `btoa` produces and `atob` accepts for the
canonical padded strings this module writes. -/

/-- Base64 alphabet: sextet value (0..63) to character code. -/
def sextetToChar (n : Nat) : Nat :=
  if n < 26 then 65 + n
  else if n < 52 then 97 + (n - 26)
  else if n < 62 then 48 + (n - 52)
  else if n = 62 then 43
  else 47

/-- Base64 alphabet: character code back to sextet value; `none` on a
character outside the alphabet (`atob` throws there). -/
def charToSextet (c : Nat) : Option Nat :=
  if 65 ≤ c ∧ c ≤ 90 then some (c - 65)
  else if 97 ≤ c ∧ c ≤ 122 then some (c - 97 + 26)
  else if 48 ≤ c ∧ c ≤ 57 then some (c - 48 + 52)
  else if c = 43 then some 62
  else if c = 47 then some 63
  else none

/-- `uint8ArrayToBase64` (webauthn.ts): bytes to base64 char codes,
three bytes per four characters, `'='` (61) padding. -/
def uint8ArrayToBase64 : List Nat → List Nat
  | [] => []
  | [b1] =>
    [sextetToChar (b1 / 4), sextetToChar (b1 % 4 * 16), 61, 61]
  | [b1, b2] =>
    [sextetToChar (b1 / 4), sextetToChar (b1 % 4 * 16 + b2 / 16),
     sextetToChar (b2 % 16 * 4), 61]
  | b1 :: b2 :: b3 :: rest =>
    sextetToChar (b1 / 4) :: sextetToChar (b1 % 4 * 16 + b2 / 16) ::
    sextetToChar (b2 % 16 * 4 + b3 / 64) :: sextetToChar (b3 % 64) ::
    uint8ArrayToBase64 rest

/-- `base64ToUint8Array` (webauthn.ts): `atob` plus the char-code loop.
`none` models `atob` throwing on a malformed string (caught by the caller). -/
def base64ToUint8Array : List Nat → Option (List Nat)
  | [] => some []
  | c1 :: c2 :: c3 :: c4 :: rest =>
    match charToSextet c1, charToSextet c2 with
    | some s1, some s2 =>
      if c3 = 61 then
        if c4 = 61 ∧ rest = [] then some [s1 * 4 + s2 / 16] else none
      else
        match charToSextet c3 with
        | some s3 =>
          if c4 = 61 then
            if rest = [] then some [s1 * 4 + s2 / 16, s2 % 16 * 16 + s3 / 4]
            else none
          else
            match charToSextet c4 with
            | some s4 =>
              match base64ToUint8Array rest with
              | some tail =>
                some ((s1 * 4 + s2 / 16) :: (s2 % 16 * 16 + s3 / 4) ::
                      (s3 % 4 * 64 + s4) :: tail)
              | none => none
            | none => none
        | none => none
    | _, _ => none
  | _ => none

lemma charToSextet_sextetToChar : ∀ n < 64, charToSextet (sextetToChar n) = some n := by
  decide

lemma sextetToChar_ne_61 : ∀ n < 64, sextetToChar n ≠ 61 := by
  decide

/-- Round trip: decoding an encoded byte sequence gives the bytes back.
This is the `storeCredentialId` / `getStoredCredentialId` round trip. -/
theorem base64_round_trip :
    ∀ (bs : List Nat), (∀ b ∈ bs, b < 256) →
      base64ToUint8Array (uint8ArrayToBase64 bs) = some bs
  | [], _ => rfl
  | [b1], h => by
    have hb1 : b1 < 256 := h b1 (by simp)
    have h1 : b1 / 4 < 64 := by omega
    have h2 : b1 % 4 * 16 < 64 := by omega
    simp only [uint8ArrayToBase64, base64ToUint8Array,
      charToSextet_sextetToChar _ h1, charToSextet_sextetToChar _ h2]
    norm_num
    omega
  | [b1, b2], h => by
    have hb1 : b1 < 256 := h b1 (by simp)
    have hb2 : b2 < 256 := h b2 (by simp)
    have h1 : b1 / 4 < 64 := by omega
    have h2 : b1 % 4 * 16 + b2 / 16 < 64 := by omega
    have h3 : b2 % 16 * 4 < 64 := by omega
    simp only [uint8ArrayToBase64, base64ToUint8Array,
      charToSextet_sextetToChar _ h1, charToSextet_sextetToChar _ h2,
      charToSextet_sextetToChar _ h3]
    rw [if_neg (sextetToChar_ne_61 _ h3)]
    norm_num
    constructor <;> omega
  | b1 :: b2 :: b3 :: rest, h => by
    have hb1 : b1 < 256 := h b1 (by simp)
    have hb2 : b2 < 256 := h b2 (by simp)
    have hb3 : b3 < 256 := h b3 (by simp)
    have ih := base64_round_trip rest (fun b hb => h b (by simp [hb]))
    have h1 : b1 / 4 < 64 := by omega
    have h2 : b1 % 4 * 16 + b2 / 16 < 64 := by omega
    have h3 : b2 % 16 * 4 + b3 / 64 < 64 := by omega
    have h4 : b3 % 64 < 64 := by omega
    simp only [uint8ArrayToBase64, base64ToUint8Array,
      charToSextet_sextetToChar _ h1, charToSextet_sextetToChar _ h2,
      charToSextet_sextetToChar _ h3, charToSextet_sextetToChar _ h4]
    rw [if_neg (sextetToChar_ne_61 _ h3), if_neg (sextetToChar_ne_61 _ h4)]
    rw [ih]
    simp only [Option.some.injEq, List.cons.injEq]
    refine ⟨by omega, by omega, by omega, trivial⟩

/-! ## Credential store (webauthn.ts, localStorage under `webauthn_credential_id`)

The store is the single persisted value: `none` models an absent key, and
`some cs` models a stored string given by its list of char codes. -/

/-- `getStoredCredentialId` (webauthn.ts): read the stored string; an absent
key or an empty string is falsy (`if (!stored) return null`); a malformed
string makes `atob` throw, which the `try`/`catch` turns into `null`. -/
def getStoredCredentialId (store : Option (List Nat)) : Option (List Nat) :=
  match store with
  | none => none
  | some s => if s = [] then none else base64ToUint8Array s

/-- `storeCredentialId` (webauthn.ts): view the `rawId` bytes as a
`Uint8Array`, base64-encode them, and write the string under the fixed key.
The result is the new store value. -/
def storeCredentialId (rawId : List Nat) : Option (List Nat) :=
  some (uint8ArrayToBase64 rawId)

/-! ## Camera gateway (camera.ts)

`currentStream` is the single module-level tracking variable. To reason about
liveness of streams beyond the one being tracked, the world also records how
many streams the platform has handed out (streams are numbered `0, 1, …`) and
which streams have had their tracks stopped. -/

structure CamWorld where
  /-- camera.ts `let currentStream: MediaStream | null = null`. -/
  currentStream : Option Nat
  /-- Number of streams the platform has produced so far; stream `k` is the
  `k`-th successful acquisition. -/
  nAcquired : Nat
  /-- Streams whose tracks have been stopped (`track.stop()`). -/
  stopped : List Nat
deriving DecidableEq

def camInit : CamWorld := ⟨none, 0, []⟩

/-- Outcome of one camera request, decided by the platform:
the capability API is absent, `getUserMedia` rejects with a `DOMException`,
or `getUserMedia` resolves with a fresh stream. -/
inductive CamOutcome
  | apiAbsent
  | deny (d : DOMError)
  | grant
deriving DecidableEq

/-- What the `try` block of `requestCameraAccess` can throw: the plain
`CameraError` object built by the support check (it has a `type` and a
`message` but no `name` property), or the platform `DOMException`. -/
inductive CamThrown
  | cameraErr (e : CameraError)
  | domErr (d : DOMError)
deriving DecidableEq

/-- The `not-supported` `CameraError` built when
`navigator.mediaDevices?.getUserMedia` is absent (camera.ts). -/
def cameraNotSupportedError : CameraError :=
  ⟨.notSupported, "Camera access is not supported in this browser. Please use a modern browser like Chrome, Firefox, Safari, or Edge."⟩

/-- The `try` block of `requestCameraAccess`: the support check (which
throws the `CameraError` object), then the `getUserMedia` call; on success
`currentStream = stream` runs and the stream is returned. -/
def cameraTryBody (o : CamOutcome) (w : CamWorld) :
    Except CamThrown (Nat × CamWorld) :=
  match o with
  | .apiAbsent => .error (.cameraErr cameraNotSupportedError)
  | .deny d => .error (.domErr d)
  | .grant =>
    let s := w.nAcquired
    .ok (s, { w with nAcquired := w.nAcquired + 1, currentStream := some s })

/-- The `catch` block of `requestCameraAccess`: it reads `error.name`
(undefined on a plain `CameraError` object) and `error.message`, and runs
the classifier switch. -/
def cameraCatch (t : CamThrown) : CameraError :=
  match t with
  | .cameraErr e => classifyCameraSwitch none e.message
  | .domErr d => classifyCameraSwitch (some d.name) d.message

/-- `requestCameraAccess` (camera.ts): try body, with every thrown value
routed through the classifier switch of the catch block. A failed call
leaves the world untouched. -/
def requestCameraAccess (w : CamWorld) (o : CamOutcome) :
    Except CameraError Nat × CamWorld :=
  match cameraTryBody o w with
  | .ok (s, w2) => (.ok s, w2)
  | .error t => (.error (cameraCatch t), w)

/-- `stopCamera` (camera.ts): stop every track of the tracked stream and
clear the variable; a no-op when nothing is tracked. -/
def stopCamera (w : CamWorld) : CamWorld :=
  match w.currentStream with
  | none => w
  | some s => { w with stopped := s :: w.stopped, currentStream := none }

/-- Stream `s` is live: it was acquired and its tracks were never stopped. -/
def isLive (w : CamWorld) (s : Nat) : Prop :=
  s < w.nAcquired ∧ s ∉ w.stopped

instance (w : CamWorld) (s : Nat) : Decidable (isLive w s) := by
  unfold isLive; infer_instance

def atMostOneLive (w : CamWorld) : Prop :=
  ∀ s t, isLive w s → isLive w t → s = t

def noLive (w : CamWorld) : Prop := ∀ s, ¬ isLive w s

/-- One client command against the camera gateway. -/
inductive CamCmd
  | request (o : CamOutcome)
  | stop
deriving DecidableEq

def camStep (w : CamWorld) : CamCmd → CamWorld
  | .request o => (requestCameraAccess w o).2
  | .stop => stopCamera w

def camRun (w : CamWorld) : List CamCmd → CamWorld
  | [] => w
  | c :: cs => camRun (camStep w c) cs

/-- A run is disciplined when every granted request is issued from a state
with no live stream (stop is always called before re-acquisition). -/
def disciplined : CamWorld → List CamCmd → Prop
  | _, [] => True
  | w, c :: cs =>
    (c = CamCmd.request CamOutcome.grant → noLive w) ∧
      disciplined (camStep w c) cs

/-! ## Biometric gateway (webauthn.ts)

The platform is an environment giving the support probe and the outcome of
the `navigator.credentials.create` / `navigator.credentials.get` calls.
The random challenge and user id (`crypto.getRandomValues`) are opaque and
observed by no claim, so they are not carried around. -/

/-- Platform behaviour for one register/authenticate call. For `create`,
`ok (some bs)` is a credential whose `rawId` has bytes `bs`; `ok none` is a
null credential; `error d` is a thrown `DOMException`. -/
structure WAEnv where
  /-- `window.PublicKeyCredential && navigator.credentials` both present. -/
  support : Bool
  createOutcome : Except DOMError (Option (List Nat))
  getOutcome : Except DOMError (Option Unit)

/-- `checkWebAuthnSupport` (webauthn.ts): pure capability probe. -/
def checkWebAuthnSupport (env : WAEnv) : Bool := env.support

/-- What the `try` bodies of webauthn.ts can throw: an already classified
`WebAuthnError` object (it has a truthy `type` discriminant, one of the
non-empty kind literals) or a platform `DOMException` (no `type` property). -/
inductive WAThrown
  | wa (e : WebAuthnError)
  | dom (d : DOMError)
deriving DecidableEq

/-- One observable platform credential-API call. The `get` call records the
`allowCredentials` identifier list it was issued with. -/
inductive PlatformCall
  | create
  | get (allowCredentials : List (List Nat))
deriving DecidableEq

/-- The `not-supported` `WebAuthnError` thrown by the support pre-check of
both `registerCredential` and `authenticateUser`. -/
def waNotSupportedError : WebAuthnError :=
  ⟨.notSupported, "WebAuthn is not supported in this browser. Please use a modern browser like Chrome, Firefox, Safari, or Edge."⟩

/-- The `invalid-state` `WebAuthnError` thrown by `authenticateUser` when no
credential identifier is stored. -/
def waInvalidStateError : WebAuthnError :=
  ⟨.invalidState, "No credential found. Please register first."⟩

/-- `{success: true, credential, isNewRegistration}` (webauthn.ts); the
opaque `credential` reference is not modelled. -/
structure AuthenticationResult where
  success : Bool
  isNewRegistration : Bool
deriving DecidableEq

/-- The `try` block of `registerCredential`: support pre-check (throws the
classified error object), challenge/user-id generation, the platform
`create` call, the null check, `storeCredentialId`, and the success result.
Returns the outcome, the store after the call, and the platform calls made. -/
def registerBody (env : WAEnv) (store : Option (List Nat)) :
    Except WAThrown AuthenticationResult × Option (List Nat) × List PlatformCall :=
  if checkWebAuthnSupport env then
    match env.createOutcome with
    | .error d => (.error (.dom d), store, [.create])
    | .ok none =>
      (.error (.wa ⟨.unknown, "Failed to create credential. Please try again."⟩),
       store, [.create])
    | .ok (some rawId) =>
      (.ok ⟨true, true⟩, storeCredentialId rawId, [.create])
  else
    (.error (.wa waNotSupportedError), store, [])

/-- The `catch` block of `registerCredential`:
`if ((err as WebAuthnError).type) throw err;` re-raises an already
classified error unchanged; everything else goes through the switch. -/
def registerCatch (t : WAThrown) : WebAuthnError :=
  match t with
  | .wa e => e
  | .dom d => classifyRegister d

/-- `registerCredential` (webauthn.ts): try body plus catch block. -/
def registerCredential (env : WAEnv) (store : Option (List Nat)) :
    Except WebAuthnError AuthenticationResult × Option (List Nat) × List PlatformCall :=
  match registerBody env store with
  | (.ok r, st, calls) => (.ok r, st, calls)
  | (.error t, st, calls) => (.error (registerCatch t), st, calls)

/-- The `try` block of `authenticateUser`: support pre-check, stored
credential lookup (throws `invalid-state` when absent), then the platform
`get` call restricted to the stored identifier as its sole allowed
credential, the null check, and the success result. -/
def authenticateBody (env : WAEnv) (store : Option (List Nat)) :
    Except WAThrown AuthenticationResult × List PlatformCall :=
  if checkWebAuthnSupport env then
    match getStoredCredentialId store with
    | none => (.error (.wa waInvalidStateError), [])
    | some credId =>
      match env.getOutcome with
      | .error d => (.error (.dom d), [.get [credId]])
      | .ok none =>
        (.error (.wa ⟨.unknown, "Failed to authenticate. Please try again."⟩),
         [.get [credId]])
      | .ok (some _) => (.ok ⟨true, false⟩, [.get [credId]])
  else
    (.error (.wa waNotSupportedError), [])

/-- The `catch` block of `authenticateUser`: same re-raise guard as
registration, then its own switch. -/
def authenticateCatch (t : WAThrown) : WebAuthnError :=
  match t with
  | .wa e => e
  | .dom d => classifyAuthenticate d

/-- `authenticateUser` (webauthn.ts): try body plus catch block. The store
is never written by authentication. -/
def authenticateUser (env : WAEnv) (store : Option (List Nat)) :
    Except WebAuthnError AuthenticationResult × List PlatformCall :=
  match authenticateBody env store with
  | (.ok r, calls) => (.ok r, calls)
  | (.error t, calls) => (.error (authenticateCatch t), calls)

/-! ## Orchestrator (main.ts `handleWebAuthnAuthentication`)

The gesture flow is a segmented state machine. A segment is a maximal
synchronous run of the handler; segments are separated by the flow's real
suspension points — the platform credential call (`navigator.credentials.create`
or `.get`, reached synchronously from the click) and the secondary
`getUserMedia` call. Under the browser's single-threaded scheduling, other
tasks (e.g. a second click) can only run between segments.

Each segment also yields the list of observable operations it performed:
support probes and store lookups (synchronous) and the platform calls
(suspending). -/

structure OrchState where
  /-- main.ts `let isAuthenticating = false` — the biometric-busy flag. -/
  isAuthenticating : Bool
  /-- main.ts `let isAuthenticated = false`. -/
  isAuthenticated : Bool
  /-- localStorage value under `webauthn_credential_id`. -/
  store : Option (List Nat)
  /-- camera.ts module state. -/
  camWorld : CamWorld
  /-- `video.srcObject`. -/
  videoSrc : Option Nat
  /-- the status banner (`showStatusMessage`), `none` when hidden. -/
  statusMsg : Option String
  /-- the error banner (`showError`), `none` when hidden. -/
  errorMsg : Option String
deriving DecidableEq

/-- Platform environment for one gesture flow. -/
structure OrchEnv where
  wa : WAEnv
  cameraOutcome : CamOutcome

/-- Observable operations of a flow, in program order. -/
inductive OrchEvent
  | supportCheck
  | storeLookup
  | credCreate
  | credGet
  | cameraRequest
  | timerSet
deriving DecidableEq

/-- Which platform credential call a suspended flow is waiting on. -/
inductive Pending
  | credCreate
  | credGet
deriving DecidableEq

def pendEvent : Pending → OrchEvent
  | .credCreate => OrchEvent.credCreate
  | .credGet => OrchEvent.credGet

/-- Result of the synchronous gesture segment: the flow either completed
without any suspension, or is suspended at its first platform call. -/
inductive TriggerRes
  | done (st : OrchState) (tr : List OrchEvent)
  | pend (st : OrchState) (p : Pending) (tr : List OrchEvent)
deriving DecidableEq

/-- Result of the segment after the credential call returns: the flow either
completed, or is suspended at the secondary `getUserMedia` call. -/
inductive CredRes
  | done (st : OrchState) (tr : List OrchEvent)
  | pendCamera (st : OrchState) (tr : List OrchEvent)
deriving DecidableEq

/-- The `not-supported` error thrown by the orchestrator's own support
check (main.ts). -/
def orchNotSupportedError : WebAuthnError :=
  ⟨.notSupported, "Your browser does not support biometric authentication. Please use a modern browser like Chrome, Safari, Firefox, or Edge."⟩

/-- The `catch` block of `handleWebAuthnAuthentication`: show the error,
reset the authenticated flag, and stop the camera if a stream was attached. -/
def orchCatch (st : OrchState) (e : WebAuthnError) : OrchState :=
  let st1 := { st with errorMsg := some e.message, isAuthenticated := false }
  match st1.videoSrc with
  | some _ => { st1 with camWorld := stopCamera st1.camWorld, videoSrc := none }
  | none => st1

/-- The `finally` block: clear the busy flag, re-enable the button. -/
def orchFinally (st : OrchState) : OrchState :=
  { st with isAuthenticating := false }

/-- The synchronous gesture segment of `handleWebAuthnAuthentication`:
re-entrancy guard; set busy; hide messages; support check; stored-credential
check; then run `authenticateUser` / `registerCredential` synchronously up
to the platform call (their inner support probe and store lookup are
synchronous; the platform call is issued before any suspension). When the
support check fails, the thrown error runs catch and finally with no
suspension at all. -/
def triggerSegment (env : OrchEnv) (st : OrchState) : TriggerRes :=
  if st.isAuthenticating then .done st []
  else
    let st1 : OrchState :=
      { st with isAuthenticating := true, statusMsg := none, errorMsg := none }
    if checkWebAuthnSupport env.wa then
      match getStoredCredentialId st1.store with
      | some _ =>
        .pend st1 .credGet
          [.supportCheck, .storeLookup, .supportCheck, .storeLookup, .credGet]
      | none =>
        .pend st1 .credCreate
          [.supportCheck, .storeLookup, .supportCheck, .credCreate]
    else
      .done (orchFinally (orchCatch st1 orchNotSupportedError)) [.supportCheck]

/-- After a biometric success, the opportunistic camera attempt
(`await requestCameraAccess()` inside its own `try`). When the camera API is
absent, `requestCameraAccess` throws before reaching the platform, the inner
`catch` swallows it, and the flow completes without a camera suspension;
otherwise the `getUserMedia` call is issued and the flow suspends on it. -/
def afterBiometricSuccess (env : OrchEnv) (st : OrchState) : CredRes :=
  match env.cameraOutcome with
  | .apiAbsent => .done (orchFinally st) []
  | _ => .pendCamera st [.cameraRequest]

/-- The segment that resumes the flow when the platform credential call
returns: null-credential checks and classification inside the gateway, the
orchestrator's success/error handling, and (on success) the camera attempt. -/
def credReturnSegment (env : OrchEnv) (st : OrchState) : Pending → CredRes
  | .credGet =>
    match env.wa.getOutcome with
    | .error d =>
      .done (orchFinally (orchCatch st (classifyAuthenticate d))) []
    | .ok none =>
      .done (orchFinally (orchCatch st
        ⟨.unknown, "Failed to authenticate. Please try again."⟩)) []
    | .ok (some _) =>
      -- `result.success` is true: mark authenticated and show the banner
      afterBiometricSuccess env
        { st with isAuthenticated := true,
                  statusMsg := some "Authentication successful! You have been verified with biometrics." }
  | .credCreate =>
    match env.wa.createOutcome with
    | .error d =>
      .done (orchFinally (orchCatch st (classifyRegister d))) []
    | .ok none =>
      .done (orchFinally (orchCatch st
        ⟨.unknown, "Failed to create credential. Please try again."⟩)) []
    | .ok (some rawId) =>
      -- `registerCredential` stored the new identifier before returning
      afterBiometricSuccess env
        { st with store := storeCredentialId rawId,
                  statusMsg := some "Biometric credential registered successfully! Click \x22Authenticate with FaceID\x22 again to verify." }

/-- The segment that resumes the flow when `getUserMedia` returns: attach
the stream and schedule the 3-second auto-stop, or swallow the failure; then
the `finally` block. -/
def cameraReturnSegment (env : OrchEnv) (st : OrchState) : OrchState × List OrchEvent :=
  match requestCameraAccess st.camWorld env.cameraOutcome with
  | (.ok s, w2) =>
    (orchFinally { st with camWorld := w2, videoSrc := some s }, [.timerSet])
  | (.error _, w2) =>
    (orchFinally { st with camWorld := w2 }, [])

/-- Drive a flow from the gesture-segment result to completion, with no
other task interleaved. -/
def resumeFlow (env : OrchEnv) : TriggerRes → OrchState × List OrchEvent
  | .done st tr => (st, tr)
  | .pend st p tr =>
    match credReturnSegment env st p with
    | .done st2 tr2 => (st2, tr ++ tr2)
    | .pendCamera st2 tr2 =>
      let r := cameraReturnSegment env st2
      (r.1, tr ++ tr2 ++ r.2)

/-- `handleWebAuthnAuthentication` (main.ts) as one uninterrupted flow:
final state and full event trace. -/
def handleWebAuthnAuthentication (env : OrchEnv) (st : OrchState) :
    OrchState × List OrchEvent :=
  resumeFlow env (triggerSegment env st)

/-- Two rapid clicks: the second click's handler runs in the first gap the
single-threaded scheduler offers. If the first flow completed synchronously,
the second click simply starts a fresh flow; if the first flow is suspended
at its credential call, the second handler runs there (hitting the guard)
and the first flow then resumes. -/
def doubleTrigger (env : OrchEnv) (st : OrchState) : OrchState × List OrchEvent :=
  match triggerSegment env st with
  | .done st1 tr1 =>
    let r := handleWebAuthnAuthentication env st1
    (r.1, tr1 ++ r.2)
  | .pend st1 p tr1 =>
    match triggerSegment env st1 with
    | .done st1b tr2 =>
      let r := resumeFlow env (.pend st1b p [])
      (r.1, tr1 ++ tr2 ++ r.2)
    | .pend st1b _ tr2 =>
      -- unreachable: the guard refuses a second flow while one is busy
      (st1b, tr1 ++ tr2)

/-- Suspension points among the observable operations. -/
def isSusp : OrchEvent → Bool
  | .credCreate => true
  | .credGet => true
  | .cameraRequest => true
  | _ => false

/-- The two platform credential-API calls. -/
def credEvent : OrchEvent → Bool
  | .credCreate => true
  | .credGet => true
  | _ => false

/-- The first suspension point of the trace, if any, is the
register-or-authenticate platform call. -/
def firstSuspIsCred (tr : List OrchEvent) : Bool :=
  match (tr.filter isSusp).head? with
  | none => true
  | some e => credEvent e

/-- No camera request occurs before a credential call: scanning the trace,
a `cameraRequest` must be preceded by a `credCreate`/`credGet`. -/
def cameraOnlyAfterCred : List OrchEvent → Bool
  | [] => true
  | OrchEvent.credCreate :: _ => true
  | OrchEvent.credGet :: _ => true
  | OrchEvent.cameraRequest :: _ => false
  | _ :: rest => cameraOnlyAfterCred rest

/-- Number of platform credential-API calls in a trace. -/
def countCred (tr : List OrchEvent) : Nat := tr.countP credEvent

/-! ## Claims -/

/-- C3: for every platform error identity in the mapping tables, the camera
and biometric classifiers return exactly the documented kind
(camera: NotAllowedError/PermissionDeniedError → permission-denied,
NotFoundError/DevicesNotFoundError → not-found,
NotReadableError/TrackStartError → in-use; biometric: NotAllowedError →
not-allowed, NotSupportedError → not-supported, InvalidStateError →
invalid-state, TimeoutError/AbortError → timeout), and every unrecognized
identity maps to `unknown` with a message carrying the original platform
message (via the `error.message || 'Unknown error'` fallback). -/
theorem c3_classifier_tables (name msg : String) :
    ((name = "NotAllowedError" ∨ name = "PermissionDeniedError") →
      (classifyCameraSwitch (some name) msg).type = CameraKind.permissionDenied) ∧
    ((name = "NotFoundError" ∨ name = "DevicesNotFoundError") →
      (classifyCameraSwitch (some name) msg).type = CameraKind.notFound) ∧
    ((name = "NotReadableError" ∨ name = "TrackStartError") →
      (classifyCameraSwitch (some name) msg).type = CameraKind.inUse) ∧
    (name ∉ (["NotAllowedError", "PermissionDeniedError", "NotFoundError",
        "DevicesNotFoundError", "NotReadableError", "TrackStartError"] : List String) →
      classifyCameraSwitch (some name) msg =
        ⟨CameraKind.unknown, "Unable to access camera: " ++ orUnknown msg⟩) ∧
    (name = "NotAllowedError" →
      (classifyRegister ⟨name, msg⟩).type = WebAuthnKind.notAllowed ∧
      (classifyAuthenticate ⟨name, msg⟩).type = WebAuthnKind.notAllowed) ∧
    (name = "NotSupportedError" →
      (classifyRegister ⟨name, msg⟩).type = WebAuthnKind.notSupported ∧
      (classifyAuthenticate ⟨name, msg⟩).type = WebAuthnKind.notSupported) ∧
    (name = "InvalidStateError" →
      (classifyRegister ⟨name, msg⟩).type = WebAuthnKind.invalidState ∧
      (classifyAuthenticate ⟨name, msg⟩).type = WebAuthnKind.invalidState) ∧
    ((name = "TimeoutError" ∨ name = "AbortError") →
      (classifyRegister ⟨name, msg⟩).type = WebAuthnKind.timeout ∧
      (classifyAuthenticate ⟨name, msg⟩).type = WebAuthnKind.timeout) ∧
    (name ∉ (["NotAllowedError", "NotSupportedError", "InvalidStateError",
        "TimeoutError", "AbortError"] : List String) →
      classifyRegister ⟨name, msg⟩ =
        ⟨WebAuthnKind.unknown, "Unable to register biometric authentication: " ++ orUnknown msg⟩ ∧
      classifyAuthenticate ⟨name, msg⟩ =
        ⟨WebAuthnKind.unknown, "Unable to authenticate: " ++ orUnknown msg⟩) ∧
    (msg ≠ "" → orUnknown msg = msg) := by
  refine ⟨?_, ?_, ?_, ?_, ?_, ?_, ?_, ?_, ?_, ?_⟩
  · rintro (h | h) <;> simp [classifyCameraSwitch, h]
  · rintro (h | h) <;> simp [classifyCameraSwitch, h]
  · rintro (h | h) <;> simp [classifyCameraSwitch, h]
  · intro h
    simp only [List.mem_cons, List.not_mem_nil, or_false, not_or] at h
    obtain ⟨h1, h2, h3, h4, h5, h6⟩ := h
    simp [classifyCameraSwitch, h1, h2, h3, h4, h5, h6]
  · intro h; simp [classifyRegister, classifyAuthenticate, h]
  · intro h; simp [classifyRegister, classifyAuthenticate, h]
  · intro h; simp [classifyRegister, classifyAuthenticate, h]
  · rintro (h | h) <;> simp [classifyRegister, classifyAuthenticate, h]
  · intro h
    simp only [List.mem_cons, List.not_mem_nil, or_false, not_or] at h
    obtain ⟨h1, h2, h3, h4, h5⟩ := h
    simp [classifyRegister, classifyAuthenticate, h1, h2, h3, h4, h5]
  · intro h; simp [orUnknown, h]

theorem c3_witness :
    (classifyCameraSwitch (some "NotAllowedError") "Permission denied").type =
      CameraKind.permissionDenied :=
  (c3_classifier_tables "NotAllowedError" "Permission denied").1 (Or.inl rfl)

/-- C4 (claim is right, code is a slip): when the camera capability API is
absent, `requestCameraAccess` builds the `not-supported` `CameraError` but
throws it inside its own `try`; the `catch` switches on `error.name`, which
the plain object does not have, so the default arm reclassifies the failure
as kind `unknown` (with the not-supported text wrapped in the fallback
message). The spec and claim say the call fails with kind `not-supported`;
the code actually fails with kind `unknown`. This theorem evaluates the code
at the failing input. -/
theorem c4_api_absent_yields_unknown_kind (w : CamWorld) :
    (requestCameraAccess w CamOutcome.apiAbsent).1 =
      Except.error ⟨CameraKind.unknown,
        "Unable to access camera: Camera access is not supported in this browser. Please use a modern browser like Chrome, Firefox, Safari, or Edge."⟩ ∧
    cameraNotSupportedError.type = CameraKind.notSupported :=
  ⟨rfl, rfl⟩

/-- C5: authenticate with no stored credential identifier fails with kind
`invalid-state` (the exact pre-check error, unchanged) and performs zero
platform credential-API calls beyond the store lookup and the support probe. -/
theorem c5_authenticate_without_credential (env : WAEnv) (store : Option (List Nat))
    (hs : env.support = true) (hc : getStoredCredentialId store = none) :
    authenticateUser env store = (Except.error waInvalidStateError, []) := by
  simp [authenticateUser, authenticateBody, checkWebAuthnSupport, hs, hc,
    authenticateCatch]

theorem c5_witness :
    authenticateUser ⟨true, Except.ok none, Except.ok none⟩ none =
      (Except.error waInvalidStateError, []) :=
  c5_authenticate_without_credential _ none rfl rfl

/-- C6: for both biometric operations, a failure that is already a
classified `WebAuthnError` — such as the `not-supported` and `invalid-state`
pre-checks — passes through the catch block unchanged (same kind and same
message), never reclassified by the fallback mapping. -/
theorem c6_classified_error_reraised (env : WAEnv) (store : Option (List Nat))
    (e : WebAuthnError) :
    (∀ st calls, registerBody env store = (Except.error (WAThrown.wa e), st, calls) →
      (registerCredential env store).1 = Except.error e) ∧
    (∀ calls, authenticateBody env store = (Except.error (WAThrown.wa e), calls) →
      (authenticateUser env store).1 = Except.error e) := by
  constructor
  · intro st calls h
    unfold registerCredential
    rw [h]
    rfl
  · intro calls h
    unfold authenticateUser
    rw [h]
    rfl

theorem c6_witness :
    (registerCredential ⟨false, Except.ok none, Except.ok none⟩ none).1 =
      Except.error waNotSupportedError ∧
    (authenticateUser ⟨true, Except.ok none, Except.ok none⟩ none).1 =
      Except.error waInvalidStateError :=
  ⟨(c6_classified_error_reraised ⟨false, Except.ok none, Except.ok none⟩ none
      waNotSupportedError).1 none [] rfl,
   (c6_classified_error_reraised ⟨true, Except.ok none, Except.ok none⟩ none
      waInvalidStateError).2 [] rfl⟩

/-- C10: whenever `registerCredential` or `authenticateUser` returns
normally instead of raising, the result is `{success: true}` (with
`isNewRegistration` true for register, false for authenticate); a result
with `success = false` is never produced, so the orchestrator's
`result.success` check has an unreachable false branch. -/
theorem c10_normal_return_is_success (env : WAEnv) (store : Option (List Nat)) :
    ((registerCredential env store).1 = Except.ok ⟨true, true⟩ ∨
      ∃ e, (registerCredential env store).1 = Except.error e) ∧
    ((authenticateUser env store).1 = Except.ok ⟨true, false⟩ ∨
      ∃ e, (authenticateUser env store).1 = Except.error e) := by
  constructor
  · unfold registerCredential registerBody checkWebAuthnSupport
    cases hs : env.support
    · simp
    · cases env.createOutcome with
      | error d => simp
      | ok o => cases o <;> simp
  · unfold authenticateUser authenticateBody checkWebAuthnSupport
    cases hs : env.support
    · simp
    · cases hg : getStoredCredentialId store
      · simp
      · cases env.getOutcome with
        | error d => simp
        | ok o => cases o <;> simp

lemma uint8ArrayToBase64_ne_nil : ∀ bs : List Nat, bs ≠ [] → uint8ArrayToBase64 bs ≠ []
  | [], h => absurd rfl h
  | [_], _ => by simp [uint8ArrayToBase64]
  | [_, _], _ => by simp [uint8ArrayToBase64]
  | _ :: _ :: _ :: _, _ => by simp [uint8ArrayToBase64]

/-- C7: after every successful registration, the stored credential
identifier is non-empty and reads back as exactly the identifier the
platform returned (the base64 encode on store followed by decode on read is
a round trip on the byte sequence), and a subsequent authenticate call uses
exactly that identifier as its sole allowed credential. The hypotheses
`rawId ≠ []` and `∀ b ∈ rawId, b < 256` say the platform returned a real
credential identifier (a non-empty byte sequence). -/
theorem c7_registration_roundtrip_and_sole_allowed (env env2 : WAEnv)
    (store : Option (List Nat)) (rawId : List Nat)
    (hs : env.support = true)
    (hc : env.createOutcome = Except.ok (some rawId))
    (hne : rawId ≠ [])
    (hbytes : ∀ b ∈ rawId, b < 256) :
    (registerCredential env store).1 = Except.ok ⟨true, true⟩ ∧
    (registerCredential env store).2.1 = some (uint8ArrayToBase64 rawId) ∧
    uint8ArrayToBase64 rawId ≠ [] ∧
    getStoredCredentialId (registerCredential env store).2.1 = some rawId ∧
    (env2.support = true →
      (authenticateUser env2 (registerCredential env store).2.1).2 =
        [PlatformCall.get [rawId]]) := by
  have hreg : registerCredential env store =
      (Except.ok ⟨true, true⟩, some (uint8ArrayToBase64 rawId), [PlatformCall.create]) := by
    simp [registerCredential, registerBody, checkWebAuthnSupport, hs, hc,
      storeCredentialId]
  have henc := uint8ArrayToBase64_ne_nil rawId hne
  have hget : getStoredCredentialId (some (uint8ArrayToBase64 rawId)) = some rawId := by
    simp [getStoredCredentialId, henc, base64_round_trip rawId hbytes]
  refine ⟨by rw [hreg], by rw [hreg], henc, by rw [hreg]; exact hget, ?_⟩
  intro hs2
  rw [hreg]
  simp only [authenticateUser, authenticateBody, checkWebAuthnSupport, hs2,
    if_true, hget]
  cases env2.getOutcome with
  | error d => rfl
  | ok o => cases o <;> rfl

theorem c7_witness :
    getStoredCredentialId
        (registerCredential ⟨true, Except.ok (some [1, 2, 3]), Except.ok none⟩ none).2.1 =
      some [1, 2, 3] ∧
    (authenticateUser ⟨true, Except.ok none, Except.ok none⟩
        (registerCredential ⟨true, Except.ok (some [1, 2, 3]), Except.ok none⟩ none).2.1).2 =
      [PlatformCall.get [[1, 2, 3]]] := by
  have h := c7_registration_roundtrip_and_sole_allowed
    ⟨true, Except.ok (some [1, 2, 3]), Except.ok none⟩
    ⟨true, Except.ok none, Except.ok none⟩ none [1, 2, 3]
    rfl rfl (by decide) (by decide)
  exact ⟨h.2.2.2.1, h.2.2.2.2 rfl⟩

/-- C8: a failed camera `requestAccess` leaves the gateway's tracked active
stream (and the whole camera world) exactly as it was before the call; the
tracking variable is replaced only after a successful acquisition, in which
case it holds the newly acquired stream. -/
theorem c8_failure_leaves_tracking_unchanged (w : CamWorld) (o : CamOutcome) :
    (∀ e w2, requestCameraAccess w o = (Except.error e, w2) →
      w2.currentStream = w.currentStream ∧ w2 = w) ∧
    (∀ s w2, requestCameraAccess w o = (Except.ok s, w2) →
      w2.currentStream = some s) := by
  cases o with
  | apiAbsent =>
    constructor
    · intro e w2 h
      simp [requestCameraAccess, cameraTryBody] at h
      exact ⟨by rw [h.2], h.2.symm⟩
    · intro s w2 h
      simp [requestCameraAccess, cameraTryBody] at h
  | deny d =>
    constructor
    · intro e w2 h
      simp [requestCameraAccess, cameraTryBody] at h
      exact ⟨by rw [h.2], h.2.symm⟩
    · intro s w2 h
      simp [requestCameraAccess, cameraTryBody] at h
  | grant =>
    constructor
    · intro e w2 h
      simp [requestCameraAccess, cameraTryBody] at h
    · intro s w2 h
      simp [requestCameraAccess, cameraTryBody] at h
      rw [← h.2, ← h.1]

theorem c8_witness :
    (requestCameraAccess ⟨some 0, 1, []⟩
        (CamOutcome.deny ⟨"NotAllowedError", "denied"⟩)).2.currentStream = some 0 :=
  ((c8_failure_leaves_tracking_unchanged ⟨some 0, 1, []⟩
      (CamOutcome.deny ⟨"NotAllowedError", "denied"⟩)).1
    ⟨CameraKind.permissionDenied,
      "Camera access was denied. Please allow camera access to continue."⟩
    ⟨some 0, 1, []⟩ rfl).1

/-- C9 counterexample: the claim says at most one acquired stream remains
live in every reachable state, *including* after a successful requestAccess
while a previous stream was live. But a successful acquisition only
replaces the tracking variable; the previous stream's tracks are never
stopped. After two consecutive granted requests, streams 0 and 1 are both
live, refuting the claim at this concrete run. -/
theorem c9_counterexample :
    ¬ atMostOneLive (camRun camInit
      [CamCmd.request CamOutcome.grant, CamCmd.request CamOutcome.grant]) := by
  intro h
  have h01 := h 0 1 (by decide) (by decide)
  exact absurd h01 (by decide)

lemma isLive_stopCamera {w : CamWorld} {s : Nat}
    (h : isLive (stopCamera w) s) : isLive w s := by
  unfold stopCamera at h
  cases hc : w.currentStream with
  | none => rw [hc] at h; exact h
  | some c =>
    rw [hc] at h
    obtain ⟨h1, h2⟩ := h
    exact ⟨h1, fun hm => h2 (List.mem_cons_of_mem _ hm)⟩

lemma atMostOneLive_camStep (w : CamWorld) (c : CamCmd)
    (hw : atMostOneLive w)
    (hgrant : c = CamCmd.request CamOutcome.grant → noLive w) :
    atMostOneLive (camStep w c) := by
  cases c with
  | stop => exact fun s t hs ht => hw s t (isLive_stopCamera hs) (isLive_stopCamera ht)
  | request o =>
    cases o with
    | apiAbsent => exact hw
    | deny d => exact hw
    | grant =>
      have hnl := hgrant rfl
      intro s t hs ht
      obtain ⟨hs1, hs2⟩ := hs
      obtain ⟨ht1, ht2⟩ := ht
      simp only [camStep, requestCameraAccess, cameraTryBody] at hs1 ht1 hs2 ht2
      have hsn : s = w.nAcquired := by
        rcases Nat.lt_succ_iff_lt_or_eq.mp hs1 with h | h
        · exact absurd ⟨h, hs2⟩ (hnl s)
        · exact h
      have htn : t = w.nAcquired := by
        rcases Nat.lt_succ_iff_lt_or_eq.mp ht1 with h | h
        · exact absurd ⟨h, ht2⟩ (hnl t)
        · exact h
      rw [hsn, htn]

lemma camRun_atMostOneLive (cmds : List CamCmd) :
    ∀ w, atMostOneLive w → disciplined w cmds → atMostOneLive (camRun w cmds) := by
  induction cmds with
  | nil => exact fun w hw _ => hw
  | cons c cs ih =>
    intro w hw hd
    exact ih (camStep w c) (atMostOneLive_camStep w c hw hd.1) hd.2

/-- C9 (amended): the gateway tracks at most one stream at any time, and in
every run in which no request is granted while a previously acquired stream
is still live, at most one acquired stream is live in the resulting state
(so in every reachable state of such runs). The unrestricted claim fails
because a successful requestAccess while a previous stream is live replaces
the tracking but leaves the previous stream's tracks un-stopped — see the
counterexample. -/
theorem c9_amended_at_most_one_live (cmds : List CamCmd)
    (hd : disciplined camInit cmds) :
    atMostOneLive (camRun camInit cmds) :=
  camRun_atMostOneLive cmds camInit
    (fun s _ hs _ => absurd hs.1 (Nat.not_lt_zero s)) hd

theorem c9_amended_witness :
    atMostOneLive (camRun camInit
      [CamCmd.request CamOutcome.grant, CamCmd.stop, CamCmd.request CamOutcome.grant]) := by
  apply c9_amended_at_most_one_live
  refine ⟨fun _ => fun s hs => ?_, fun _ => ?_, fun _ => fun s hs => ?_, trivial⟩
  · exact absurd hs.1 (Nat.not_lt_zero s)
  · trivial
  · obtain ⟨h1, h2⟩ := hs
    have : s = 0 := by
      simp only [camStep, requestCameraAccess, cameraTryBody, stopCamera, camInit] at h1
      omega
    exact h2 (by simp [camStep, requestCameraAccess, cameraTryBody, stopCamera, camInit, this])

lemma triggerSegment_noSupport (env : OrchEnv) (st : OrchState)
    (h : st.isAuthenticating = false) (hs : env.wa.support = false) :
    triggerSegment env st =
      TriggerRes.done
        (orchFinally (orchCatch
          { st with isAuthenticating := true, statusMsg := none, errorMsg := none }
          orchNotSupportedError))
        [OrchEvent.supportCheck] := by
  simp [triggerSegment, checkWebAuthnSupport, h, hs]

lemma triggerSegment_auth (env : OrchEnv) (st : OrchState) (c : List Nat)
    (h : st.isAuthenticating = false) (hs : env.wa.support = true)
    (hc : getStoredCredentialId st.store = some c) :
    triggerSegment env st =
      TriggerRes.pend
        { st with isAuthenticating := true, statusMsg := none, errorMsg := none }
        Pending.credGet
        [OrchEvent.supportCheck, OrchEvent.storeLookup, OrchEvent.supportCheck,
         OrchEvent.storeLookup, OrchEvent.credGet] := by
  simp [triggerSegment, checkWebAuthnSupport, h, hs, hc]

lemma triggerSegment_register (env : OrchEnv) (st : OrchState)
    (h : st.isAuthenticating = false) (hs : env.wa.support = true)
    (hc : getStoredCredentialId st.store = none) :
    triggerSegment env st =
      TriggerRes.pend
        { st with isAuthenticating := true, statusMsg := none, errorMsg := none }
        Pending.credCreate
        [OrchEvent.supportCheck, OrchEvent.storeLookup, OrchEvent.supportCheck,
         OrchEvent.credCreate] := by
  simp [triggerSegment, checkWebAuthnSupport, h, hs, hc]

/-- C1: in the gesture-triggered biometric flow, after the re-entrancy guard
and setting biometric-busy, the support check and the register-or-authenticate
platform call are issued synchronously with no other asynchronous operation
interleaved first: in every execution of the flow, the first suspension point
of the whole trace is the register-or-authenticate call; the synchronous
gesture segment itself ends by issuing that call with no earlier suspension;
whenever the support probe passes, the gesture segment does suspend on that
call; and the camera request occurs only after a credential call. -/
theorem c1_first_suspension_is_cred_call (env : OrchEnv) (st : OrchState)
    (h : st.isAuthenticating = false) :
    firstSuspIsCred (handleWebAuthnAuthentication env st).2 = true ∧
    cameraOnlyAfterCred (handleWebAuthnAuthentication env st).2 = true ∧
    (∀ st1 p tr, triggerSegment env st = TriggerRes.pend st1 p tr →
      tr.getLast? = some (pendEvent p) ∧ tr.dropLast.filter isSusp = []) ∧
    (checkWebAuthnSupport env.wa = true →
      ∃ st1 p tr, triggerSegment env st = TriggerRes.pend st1 p tr) := by
  cases hs : env.wa.support with
  | false =>
    have htr := triggerSegment_noSupport env st h hs
    refine ⟨?_, ?_, ?_, ?_⟩
    · rw [handleWebAuthnAuthentication, htr]
      simp only [resumeFlow]
      decide
    · rw [handleWebAuthnAuthentication, htr]
      simp only [resumeFlow]
      decide
    · intro st1 p tr htr2
      rw [htr] at htr2
      exact absurd htr2 (by simp)
    · intro hsup
      rw [checkWebAuthnSupport, hs] at hsup
      exact absurd hsup (by simp)
  | true =>
    cases hcred : getStoredCredentialId st.store with
    | some c =>
      have htr := triggerSegment_auth env st c h hs hcred
      refine ⟨?_, ?_, ?_, ?_⟩
      · rw [handleWebAuthnAuthentication, htr]
        rcases hgo : env.wa.getOutcome with d | o
        · simp only [resumeFlow, credReturnSegment, hgo]
          decide
        · cases o with
          | none =>
            simp only [resumeFlow, credReturnSegment, hgo]
            decide
          | some u =>
            cases hcam : env.cameraOutcome with
            | apiAbsent =>
              simp only [resumeFlow, credReturnSegment, hgo, afterBiometricSuccess, hcam]
              decide
            | deny d =>
              simp only [resumeFlow, credReturnSegment, hgo, afterBiometricSuccess, hcam,
                cameraReturnSegment, requestCameraAccess, cameraTryBody]
              decide
            | grant =>
              simp only [resumeFlow, credReturnSegment, hgo, afterBiometricSuccess, hcam,
                cameraReturnSegment, requestCameraAccess, cameraTryBody]
              decide
      · rw [handleWebAuthnAuthentication, htr]
        rcases hgo : env.wa.getOutcome with d | o
        · simp only [resumeFlow, credReturnSegment, hgo]
          decide
        · cases o with
          | none =>
            simp only [resumeFlow, credReturnSegment, hgo]
            decide
          | some u =>
            cases hcam : env.cameraOutcome with
            | apiAbsent =>
              simp only [resumeFlow, credReturnSegment, hgo, afterBiometricSuccess, hcam]
              decide
            | deny d =>
              simp only [resumeFlow, credReturnSegment, hgo, afterBiometricSuccess, hcam,
                cameraReturnSegment, requestCameraAccess, cameraTryBody]
              decide
            | grant =>
              simp only [resumeFlow, credReturnSegment, hgo, afterBiometricSuccess, hcam,
                cameraReturnSegment, requestCameraAccess, cameraTryBody]
              decide
      · intro st1 p tr htr2
        rw [htr] at htr2
        injection htr2 with h1 h2 h3
        subst h2
        subst h3
        decide
      · intro _
        exact ⟨_, _, _, htr⟩
    | none =>
      have htr := triggerSegment_register env st h hs hcred
      refine ⟨?_, ?_, ?_, ?_⟩
      · rw [handleWebAuthnAuthentication, htr]
        rcases hco : env.wa.createOutcome with d | o
        · simp only [resumeFlow, credReturnSegment, hco]
          decide
        · cases o with
          | none =>
            simp only [resumeFlow, credReturnSegment, hco]
            decide
          | some rawId =>
            cases hcam : env.cameraOutcome with
            | apiAbsent =>
              simp only [resumeFlow, credReturnSegment, hco, afterBiometricSuccess, hcam]
              decide
            | deny d =>
              simp only [resumeFlow, credReturnSegment, hco, afterBiometricSuccess, hcam,
                cameraReturnSegment, requestCameraAccess, cameraTryBody]
              decide
            | grant =>
              simp only [resumeFlow, credReturnSegment, hco, afterBiometricSuccess, hcam,
                cameraReturnSegment, requestCameraAccess, cameraTryBody]
              decide
      · rw [handleWebAuthnAuthentication, htr]
        rcases hco : env.wa.createOutcome with d | o
        · simp only [resumeFlow, credReturnSegment, hco]
          decide
        · cases o with
          | none =>
            simp only [resumeFlow, credReturnSegment, hco]
            decide
          | some rawId =>
            cases hcam : env.cameraOutcome with
            | apiAbsent =>
              simp only [resumeFlow, credReturnSegment, hco, afterBiometricSuccess, hcam]
              decide
            | deny d =>
              simp only [resumeFlow, credReturnSegment, hco, afterBiometricSuccess, hcam,
                cameraReturnSegment, requestCameraAccess, cameraTryBody]
              decide
            | grant =>
              simp only [resumeFlow, credReturnSegment, hco, afterBiometricSuccess, hcam,
                cameraReturnSegment, requestCameraAccess, cameraTryBody]
              decide
      · intro st1 p tr htr2
        rw [htr] at htr2
        injection htr2 with h1 h2 h3
        subst h2
        subst h3
        decide
      · intro _
        exact ⟨_, _, _, htr⟩

theorem c1_witness :
    firstSuspIsCred (handleWebAuthnAuthentication
      ⟨⟨true, Except.ok none, Except.ok none⟩, CamOutcome.apiAbsent⟩
      ⟨false, false, none, camInit, none, none, none⟩).2 = true :=
  (c1_first_suspension_is_cred_call
    ⟨⟨true, Except.ok none, Except.ok none⟩, CamOutcome.apiAbsent⟩
    ⟨false, false, none, camInit, none, none, none⟩ rfl).1

lemma credReturnSegment_trace (env : OrchEnv) (st : OrchState) (p : Pending) :
    (∀ st2 tr, credReturnSegment env st p = CredRes.done st2 tr → tr = []) ∧
    (∀ st2 tr, credReturnSegment env st p = CredRes.pendCamera st2 tr →
      tr = [OrchEvent.cameraRequest]) := by
  constructor <;> intro st2 tr h2 <;> cases p <;>
    rcases hco : env.wa.createOutcome with d | (_ | rawId) <;>
    rcases hgo : env.wa.getOutcome with d2 | (_ | u) <;>
    cases hcam : env.cameraOutcome <;>
    simp only [credReturnSegment, hco, hgo, afterBiometricSuccess, hcam] at h2 <;>
    first
      | (injection h2 with h1 h3; exact h3.symm)
      | exact CredRes.noConfusion h2

lemma cameraReturnSegment_trace (env : OrchEnv) (st : OrchState) :
    (cameraReturnSegment env st).2 = [] ∨
      (cameraReturnSegment env st).2 = [OrchEvent.timerSet] := by
  unfold cameraReturnSegment
  cases hcam : env.cameraOutcome <;>
    simp [requestCameraAccess, cameraTryBody]

lemma cameraReturnSegment_busy (env : OrchEnv) (st : OrchState) :
    (cameraReturnSegment env st).1.isAuthenticating = false := by
  unfold cameraReturnSegment
  cases hcam : env.cameraOutcome <;>
    simp [requestCameraAccess, cameraTryBody, orchFinally]

lemma credReturnSegment_done_busy (env : OrchEnv) (st : OrchState) (p : Pending) :
    ∀ st2 tr, credReturnSegment env st p = CredRes.done st2 tr →
      st2.isAuthenticating = false := by
  intro st2 tr h2
  cases p <;>
    rcases hco : env.wa.createOutcome with d | (_ | rawId) <;>
    rcases hgo : env.wa.getOutcome with d2 | (_ | u) <;>
    cases hcam : env.cameraOutcome <;>
    simp only [credReturnSegment, hco, hgo, afterBiometricSuccess, hcam] at h2 <;>
    first
      | (injection h2 with h1 h3; rw [← h1]; rfl)
      | exact CredRes.noConfusion h2

lemma resumeFlow_pend_busy (env : OrchEnv) (stB : OrchState) (p : Pending)
    (tr : List OrchEvent) :
    (resumeFlow env (TriggerRes.pend stB p tr)).1.isAuthenticating = false := by
  simp only [resumeFlow]
  cases hcr : credReturnSegment env stB p with
  | done st2 tr2 => exact credReturnSegment_done_busy env stB p st2 tr2 hcr
  | pendCamera st2 tr2 => exact cameraReturnSegment_busy env st2

/-- C2 (amended): biometric-busy (`isAuthenticating`) is true for the entire
duration of the at-most-one in-flight register-or-authenticate call and is
always cleared when the flow ends, on success or failure; it can remain true
after that call completes, while the same flow performs its secondary camera
acquisition (see the counterexample for the claim's stronger "false
otherwise"). Triggering the biometric flow while busy has no observable
effect — the guard returns with the state unchanged and no operation
performed — so two rapid triggers produce exactly one credential-API call,
with no queueing. -/
theorem c2_busy_flag_and_reentrancy_guard (env : OrchEnv) (st : OrchState) :
    (st.isAuthenticating = true → triggerSegment env st = TriggerRes.done st []) ∧
    (∀ st1 p tr, triggerSegment env st = TriggerRes.pend st1 p tr →
      st1.isAuthenticating = true) ∧
    (st.isAuthenticating = false →
      (handleWebAuthnAuthentication env st).1.isAuthenticating = false) ∧
    (st.isAuthenticating = false →
      ∀ st1 p tr, triggerSegment env st = TriggerRes.pend st1 p tr →
        doubleTrigger env st = handleWebAuthnAuthentication env st ∧
        countCred (handleWebAuthnAuthentication env st).2 = 1) := by
  refine ⟨?_, ?_, ?_, ?_⟩
  · intro hb
    simp [triggerSegment, hb]
  · intro st1 p tr htr
    cases hb : st.isAuthenticating with
    | true =>
      rw [triggerSegment] at htr
      simp [hb] at htr
    | false =>
      cases hs : env.wa.support with
      | false =>
        rw [triggerSegment_noSupport env st hb hs] at htr
        exact absurd htr (by simp)
      | true =>
        cases hcred : getStoredCredentialId st.store with
        | some c =>
          rw [triggerSegment_auth env st c hb hs hcred] at htr
          injection htr with h1 h2 h3
          rw [← h1]
        | none =>
          rw [triggerSegment_register env st hb hs hcred] at htr
          injection htr with h1 h2 h3
          rw [← h1]
  · intro hb
    cases hs : env.wa.support with
    | false =>
      rw [handleWebAuthnAuthentication, triggerSegment_noSupport env st hb hs]
      rfl
    | true =>
      cases hcred : getStoredCredentialId st.store with
      | some c =>
        rw [handleWebAuthnAuthentication, triggerSegment_auth env st c hb hs hcred]
        exact resumeFlow_pend_busy env _ _ _
      | none =>
        rw [handleWebAuthnAuthentication, triggerSegment_register env st hb hs hcred]
        exact resumeFlow_pend_busy env _ _ _
  · intro hb st1 p tr htr
    have key : ∀ stB P T, triggerSegment env st = TriggerRes.pend stB P T →
        stB.isAuthenticating = true → countCred T = 1 →
        doubleTrigger env st = handleWebAuthnAuthentication env st ∧
        countCred (handleWebAuthnAuthentication env st).2 = 1 := by
      intro stB P T htr0 hbusy hcount
      have hguard : triggerSegment env stB = TriggerRes.done stB [] := by
        simp [triggerSegment, hbusy]
      constructor
      · unfold doubleTrigger handleWebAuthnAuthentication
        simp only [htr0, hguard]
        cases hcr : credReturnSegment env stB P with
        | done st2 tr2 => simp [resumeFlow, hcr]
        | pendCamera st2 tr2 => simp [resumeFlow, hcr]
      · unfold handleWebAuthnAuthentication
        simp only [htr0, resumeFlow]
        cases hcr : credReturnSegment env stB P with
        | done st2 tr2 =>
          have h0 := (credReturnSegment_trace env stB P).1 st2 tr2 hcr
          subst h0
          simpa [countCred] using hcount
        | pendCamera st2 tr2 =>
          have h0 := (credReturnSegment_trace env stB P).2 st2 tr2 hcr
          subst h0
          simp only [countCred] at hcount ⊢
          rcases cameraReturnSegment_trace env st2 with h3 | h3 <;>
            simp [List.countP_append, h3, hcount, List.countP_cons, credEvent]
    cases hs : env.wa.support with
    | false =>
      rw [triggerSegment_noSupport env st hb hs] at htr
      exact absurd htr (by simp)
    | true =>
      cases hcred : getStoredCredentialId st.store with
      | some c =>
        exact key _ _ _ (triggerSegment_auth env st c hb hs hcred) rfl (by decide)
      | none =>
        exact key _ _ _ (triggerSegment_register env st hb hs hcred) rfl (by decide)

theorem c2_witness :
    triggerSegment ⟨⟨true, Except.ok none, Except.ok none⟩, CamOutcome.apiAbsent⟩
        ⟨true, false, none, camInit, none, none, none⟩ =
      TriggerRes.done ⟨true, false, none, camInit, none, none, none⟩ [] :=
  (c2_busy_flag_and_reentrancy_guard
    ⟨⟨true, Except.ok none, Except.ok none⟩, CamOutcome.apiAbsent⟩
    ⟨true, false, none, camInit, none, none, none⟩).1 rfl

/-- C2 counterexample: the claim states biometric-busy is true for the
duration of the credential call "and false otherwise". But after the
credential call completes successfully, the same flow suspends again on the
secondary camera request with `isAuthenticating` still `true`: at that
observable suspension point no register-or-authenticate call is in flight,
yet the busy flag is set. The run below (stored credential present, platform
`get` succeeds, camera grant pending) reaches exactly that state. -/
theorem c2_counterexample :
    triggerSegment
        ⟨⟨true, Except.ok (some [9]), Except.ok (some ())⟩, CamOutcome.grant⟩
        ⟨false, false, some (uint8ArrayToBase64 [1, 2, 3]), camInit, none, none, none⟩ =
      TriggerRes.pend
        ⟨true, false, some (uint8ArrayToBase64 [1, 2, 3]), camInit, none, none, none⟩
        Pending.credGet
        [OrchEvent.supportCheck, OrchEvent.storeLookup, OrchEvent.supportCheck,
         OrchEvent.storeLookup, OrchEvent.credGet] ∧
    credReturnSegment
        ⟨⟨true, Except.ok (some [9]), Except.ok (some ())⟩, CamOutcome.grant⟩
        ⟨true, false, some (uint8ArrayToBase64 [1, 2, 3]), camInit, none, none, none⟩
        Pending.credGet =
      CredRes.pendCamera
        ⟨true, true, some (uint8ArrayToBase64 [1, 2, 3]), camInit, none,
         some "Authentication successful! You have been verified with biometrics.", none⟩
        [OrchEvent.cameraRequest] ∧
    (⟨true, true, some (uint8ArrayToBase64 [1, 2, 3]), camInit, none,
      some "Authentication successful! You have been verified with biometrics.", none⟩ :
        OrchState).isAuthenticating = true := by
  refine ⟨?_, rfl, rfl⟩
  rfl
